import Mathlib

/-!
Shallow embedding of the resilient AI-invocation layer of the
COA_AI_Template backend (`src/backend/app/ai_service.py` and
`src/backend/app/openai_provider.py`), together with theorems settling
the specification claims about it.

Modelling conventions:
* Python floats appearing here (backoff durations, temperatures,
  embedding components, JSON number literals) are modelled as exact
  rationals `ℚ`; all float arithmetic performed by the embedded code
  (products and powers of small integers) is exact in IEEE doubles, so
  nothing is lost.
* A wrapped asynchronous operation is modelled as a function
  `Nat → σ → Except PyErr α × σ`: given the 0-based index of the
  current invocation and the current external-world state `σ`, it
  returns the outcome of one invocation together with the successor
  world state.  Threading `σ` lets nested retry wrappers account for
  every individual provider call (needed for `chat_completion_json`,
  which is a retry wrapper around the already-wrapped
  `chat_completion`).
* Raised Python exceptions are values of `PyErr`; `await` / exception
  propagation becomes `Except` plumbing.
-/

/-- The Python exceptions that can flow through `with_retry` in
`ai_service.py`.  The first four model the `openai` exception classes
caught by the decorator (`RateLimitError`, `APITimeoutError`,
`APIConnectionError`, `APIStatusError` with its `status_code`); in the
`openai` library an HTTP 429 response is always raised as
`RateLimitError`, so `rateLimit` is the 429 case.  `valueError` models
`ValueError` (carrying its message string), `indexError` models
`IndexError` (from `response.choices[0]` on an empty list), and
`typeError` models the `TypeError` produced by `raise None` when the
loop body never executed. -/
inductive PyErr where
  | rateLimit
  | apiTimeout
  | apiConnection
  | apiStatus (status_code : Nat)
  | valueError (msg : String)
  | indexError
  | typeError
deriving DecidableEq

/-- `MAX_RETRIES = 3` in `ai_service.py`. -/
def MAX_RETRIES : Nat := 3

/-- `INITIAL_BACKOFF = 1.0` in `ai_service.py`. -/
def INITIAL_BACKOFF : ℚ := 1

/-- `BACKOFF_MULTIPLIER = 2.0` in `ai_service.py`. -/
def BACKOFF_MULTIPLIER : ℚ := 2

/-- Which raised errors are caught (and hence retried) by the `except`
chain of `with_retry`'s wrapper: `RateLimitError`, `APITimeoutError`
and `APIConnectionError` always are; an `APIStatusError` is caught but
immediately re-raised when `400 <= status_code < 500`, which is
observationally the same as not handling it, and is retried otherwise.
Exceptions matching no `except` clause (`valueError`, `indexError`,
`typeError`) propagate out of the loop at once. -/
def handledByRetry : PyErr → Bool
  | .rateLimit => true
  | .apiTimeout => true
  | .apiConnection => true
  | .apiStatus code => if 400 ≤ code ∧ code < 500 then false else true
  | .valueError _ => false
  | .indexError => false
  | .typeError => false

/-- Observable outcome of running a retry-wrapped operation:
how many times the wrapped operation was invoked, the total time spent
in `asyncio.sleep`, the final external-world state, and the returned
value or propagated exception. -/
structure RunResult (σ α : Type) where
  attempts : Nat
  totalSleep : ℚ
  finalState : σ
  outcome : Except PyErr α

/-- The `for attempt in range(max_retries)` loop of `with_retry`'s
`wrapper`, with `r` the number of loop iterations still available and
`a` the current value of `attempt` (also the number of invocations made
so far).  `lastExc` is `last_exception`, `acc` the sleep time spent so
far, `s` the external-world state.  On a handled transient failure the
code sleeps `backoff * (BACKOFF_MULTIPLIER ** attempt)` — `backoff` is
never reassigned in the source, so it stays at its initial value `b` —
and this sleep happens on every handled failure, including the one in
the final iteration.  When the loop ends, `raise last_exception`
(modelled as `typeError` when `last_exception` is still `None`). -/
def withRetryAux {σ α : Type} (f : Nat → σ → Except PyErr α × σ) (b m : ℚ) :
    Nat → Nat → Option PyErr → ℚ → σ → RunResult σ α
  | a, 0, lastExc, acc, s => ⟨a, acc, s, .error (lastExc.getD .typeError)⟩
  | a, r + 1, _lastExc, acc, s =>
    match f a s with
    | (.ok v, s1) => ⟨a + 1, acc, s1, .ok v⟩
    | (.error e, s1) =>
      if handledByRetry e then
        withRetryAux f b m (a + 1) r (some e) (acc + b * m ^ a) s1
      else
        ⟨a + 1, acc, s1, .error e⟩

/-- `with_retry(max_retries)` from `ai_service.py`, applied to an
operation `f`: run the retry loop from attempt 0 with
`backoff = INITIAL_BACKOFF` (parameter `b`) and the given multiplier
`m`, starting in world state `s`. -/
def with_retry {σ α : Type} (max_retries : Nat) (b m : ℚ)
    (f : Nat → σ → Except PyErr α × σ) (s : σ) : RunResult σ α :=
  withRetryAux f b m 0 max_retries none 0 s

/-- Lift a stateless operation stub (outcome determined by the
invocation index) into the stateful operation shape. -/
def liftOp {α : Type} (g : Nat → Except PyErr α) :
    Nat → Unit → Except PyErr α × Unit :=
  fun i _ => (g i, ())

/-! ## A model of Python `json.loads`

`chat_completion_json` parses provider output with `json.loads`.  The
definitions below model CPython's `json` decoder (default settings) on
`String` input: recursive-descent parsing with the decoder's error
messages and character positions.  Whitespace is `' '`, `'\t'`,
`'\n'`, `'\r'`.  Model limits (documented, irrelevant to the claims):
the reprs of the offending characters interpolated into the
"Invalid control character"/"Invalid escape" messages are omitted, JSON
number literals become exact rationals rather than IEEE doubles, and a
lone UTF-16 surrogate from a `\uXXXX` escape (unrepresentable in a Lean
`Char`) degrades to `'\x00'`. -/

/-- A parsed JSON value as produced by `json.loads`: `null`, booleans,
numbers (`int` for literals without fraction/exponent, `float`
otherwise, plus the Python-accepted constants `NaN`, `Infinity`,
`-Infinity`), strings, arrays and objects (insertion-ordered key/value
pairs, later duplicate keys overwriting in place as `dict` does). -/
inductive JsonValue where
  | null
  | bool (b : Bool)
  | intVal (n : Int)
  | floatVal (q : ℚ)
  | nanVal
  | infVal
  | negInfVal
  | str (s : String)
  | arr (items : List JsonValue)
  | obj (pairs : List (String × JsonValue))

/-- `json.JSONDecodeError`, reduced to its message and character
position (the raw document is always the string being parsed and is
kept alongside where needed). -/
structure JsonDecodeError where
  msg : String
  pos : Nat
deriving DecidableEq

/-- JSON whitespace, as in the decoder's `WHITESPACE` class. -/
def isJsonWs (c : Char) : Bool :=
  c = ' ' || c = '\t' || c = '\n' || c = '\r'

/-- Index of the first non-whitespace character at or after `pos`
(fuel-driven helper). -/
def skipWsAux (doc : List Char) : Nat → Nat → Nat
  | 0, pos => pos
  | fuel + 1, pos =>
    match doc.get? pos with
    | some c => if isJsonWs c then skipWsAux doc fuel (pos + 1) else pos
    | none => pos

/-- `_w(s, pos).end()`: skip JSON whitespace. -/
def skipWs (doc : List Char) (pos : Nat) : Nat :=
  skipWsAux doc (doc.length + 1) pos

/-- The decoder's `BACKSLASH` table of single-character escapes. -/
def escapeChar : Char → Option Char
  | '"' => some '"'
  | '\\' => some '\\'
  | '/' => some '/'
  | 'b' => some (Char.ofNat 8)
  | 'f' => some (Char.ofNat 12)
  | 'n' => some '\n'
  | 'r' => some '\r'
  | 't' => some '\t'
  | _ => none

/-- Value of one hexadecimal digit. -/
def hexDigitVal (c : Char) : Option Nat :=
  if c.isDigit then some (c.toNat - 48)
  else if 'a' ≤ c ∧ c ≤ 'f' then some (c.toNat - 87)
  else if 'A' ≤ c ∧ c ≤ 'F' then some (c.toNat - 55)
  else none

/-- `_decode_uXXXX(s, upos)` with `upos` the index of the `u`: read the
four hex digits after it, or fail at `upos`. -/
def decodeU4 (doc : List Char) (upos : Nat) : Except JsonDecodeError Nat :=
  match doc.get? (upos + 1), doc.get? (upos + 2), doc.get? (upos + 3), doc.get? (upos + 4) with
  | some c1, some c2, some c3, some c4 =>
    match hexDigitVal c1, hexDigitVal c2, hexDigitVal c3, hexDigitVal c4 with
    | some v1, some v2, some v3, some v4 => .ok (((v1 * 16 + v2) * 16 + v3) * 16 + v4)
    | _, _, _, _ => .error ⟨"Invalid \\uXXXX escape", upos⟩
  | _, _, _, _ => .error ⟨"Invalid \\uXXXX escape", upos⟩

/-- `py_scanstring(s, pos)` for `pos` just after the opening quote at
index `begin`: scan characters until the closing quote, decoding
backslash escapes (including `\uXXXX` with UTF-16 surrogate-pair
recombination) and rejecting raw control characters, returning the
string contents and the index just past the closing quote. -/
def scanstring (doc : List Char) : Nat → Nat → Nat → List Char →
    Except JsonDecodeError (String × Nat)
  | 0, _, bg, _ => .error ⟨"Unterminated string starting at", bg⟩
  | fuel + 1, pos, bg, acc =>
    match doc.get? pos with
    | none => .error ⟨"Unterminated string starting at", bg⟩
    | some c =>
      if c = '"' then .ok (String.mk acc.reverse, pos + 1)
      else if c = '\\' then
        match doc.get? (pos + 1) with
        | none => .error ⟨"Unterminated string starting at", bg⟩
        | some esc =>
          if esc = 'u' then
            match decodeU4 doc (pos + 1) with
            | .error e => .error e
            | .ok uni =>
              if 0xd800 ≤ uni ∧ uni ≤ 0xdbff ∧ doc.get? (pos + 6) = some '\\' ∧
                  doc.get? (pos + 7) = some 'u' then
                match decodeU4 doc (pos + 7) with
                | .error e => .error e
                | .ok uni2 =>
                  if 0xdc00 ≤ uni2 ∧ uni2 ≤ 0xdfff then
                    scanstring doc fuel (pos + 12) bg
                      (Char.ofNat (0x10000 + (uni - 0xd800) * 1024 + (uni2 - 0xdc00)) :: acc)
                  else
                    scanstring doc fuel (pos + 6) bg (Char.ofNat uni :: acc)
              else
                scanstring doc fuel (pos + 6) bg (Char.ofNat uni :: acc)
          else
            match escapeChar esc with
            | some c2 => scanstring doc fuel (pos + 2) bg (c2 :: acc)
            | none => .error ⟨"Invalid \\escape", pos + 1⟩
      else if c.toNat < 0x20 then
        .error ⟨"Invalid control character at", pos + 1⟩
      else
        scanstring doc fuel (pos + 1) bg (c :: acc)

/-- Digit run starting at `pos`. -/
def takeDigits (doc : List Char) (pos : Nat) : List Char :=
  (doc.drop pos).takeWhile Char.isDigit

/-- Decimal value of a digit run. -/
def natFromDigits (ds : List Char) : Nat :=
  ds.foldl (fun a c => a * 10 + (c.toNat - 48)) 0

/-- The optional `[eE][-+]?\d+` suffix of the decoder's `NUMBER_RE`:
signed exponent value and end position, or `none` when the regex group
does not match. -/
def scanExp (doc : List Char) (p2 : Nat) : Option (Int × Nat) :=
  match doc.get? p2 with
  | some c =>
    if c = 'e' ∨ c = 'E' then
      let sp : Bool × Nat :=
        match doc.get? (p2 + 1) with
        | some '+' => (false, p2 + 2)
        | some '-' => (true, p2 + 2)
        | _ => (false, p2 + 1)
      let eds := takeDigits doc sp.2
      if eds.isEmpty then none
      else some ((if sp.1 then -(natFromDigits eds : Int) else (natFromDigits eds : Int)),
        sp.2 + eds.length)
    else none
  | none => none

/-- Exact rational value of a matched number literal. -/
def numValue (neg : Bool) (intDigits fracDigits : List Char) (e : Int) : ℚ :=
  let base : ℚ := (natFromDigits intDigits : ℚ) +
    (natFromDigits fracDigits : ℚ) / (10 : ℚ) ^ fracDigits.length
  let v := base * (10 : ℚ) ^ e
  if neg then -v else v

/-- Assemble the number whose integer digits ended at `p1`: optional
`.\d+` fraction, optional exponent; `int` when both are absent, `float`
otherwise (as `parse_int` / `parse_float` do). -/
def mkNumber (doc : List Char) (neg : Bool) (intDigits : List Char) (p1 : Nat) :
    JsonValue × Nat :=
  let fracDigits := if doc.get? p1 = some '.' then takeDigits doc (p1 + 1) else []
  let p2 := if fracDigits.isEmpty then p1 else p1 + 1 + fracDigits.length
  match scanExp doc p2 with
  | some (e, p3) => (JsonValue.floatVal (numValue neg intDigits fracDigits e), p3)
  | none =>
    if fracDigits.isEmpty then
      (JsonValue.intVal
        (if neg then -(natFromDigits intDigits : Int) else (natFromDigits intDigits : Int)), p2)
    else
      (JsonValue.floatVal (numValue neg intDigits fracDigits 0), p2)

/-- Match of the decoder's `NUMBER_RE` (`-?(0|[1-9]\d*)(\.\d+)?([eE][-+]?\d+)?`)
anchored at `pos`: the parsed number and end position, or `none`. -/
def scanNumber (doc : List Char) (pos : Nat) : Option (JsonValue × Nat) :=
  let np : Bool × Nat :=
    match doc.get? pos with
    | some '-' => (true, pos + 1)
    | _ => (false, pos)
  match doc.get? np.2 with
  | some c =>
    if c = '0' then some (mkNumber doc np.1 ['0'] (np.2 + 1))
    else if c.isDigit then
      let ds := takeDigits doc np.2
      some (mkNumber doc np.1 ds (np.2 + ds.length))
    else none
  | none => none

/-- Does `lit` occur verbatim at `pos`? -/
def matchLit (doc : List Char) (pos : Nat) (lit : List Char) : Bool :=
  lit.isPrefixOf (doc.drop pos)

/-- `dict` insertion: a later duplicate key overwrites the stored value
in place, a new key is appended. -/
def dictInsert (pairs : List (String × JsonValue)) (k : String) (v : JsonValue) :
    List (String × JsonValue) :=
  if pairs.any (fun p => p.1 == k) then
    pairs.map (fun p => if p.1 == k then (k, v) else p)
  else pairs ++ [(k, v)]

mutual

/-- `scan_once(s, pos)`: dispatch on the character at `pos` exactly as
the decoder does — string, object, array, `null`, `true`, `false`,
number, then the constants `NaN` / `Infinity` / `-Infinity`; anything
else (or end of input) is "Expecting value" at `pos`. -/
def parseValue (doc : List Char) (fuel : Nat) (pos : Nat) :
    Except JsonDecodeError (JsonValue × Nat) :=
  match fuel with
  | 0 => .error ⟨"Expecting value", pos⟩
  | f + 1 =>
    match doc.get? pos with
    | none => .error ⟨"Expecting value", pos⟩
    | some c =>
      if c = '"' then
        match scanstring doc (doc.length + 1) (pos + 1) pos [] with
        | .error e => .error e
        | .ok (s, p) => .ok (.str s, p)
      else if c = '{' then parseObject doc f (pos + 1)
      else if c = '[' then parseArray doc f (pos + 1)
      else if matchLit doc pos "null".data then .ok (.null, pos + 4)
      else if matchLit doc pos "true".data then .ok (.bool true, pos + 4)
      else if matchLit doc pos "false".data then .ok (.bool false, pos + 5)
      else
        match scanNumber doc pos with
        | some (v, p) => .ok (v, p)
        | none =>
          if matchLit doc pos "NaN".data then .ok (.nanVal, pos + 3)
          else if matchLit doc pos "Infinity".data then .ok (.infVal, pos + 8)
          else if matchLit doc pos "-Infinity".data then .ok (.negInfVal, pos + 9)
          else .error ⟨"Expecting value", pos⟩
termination_by structural fuel

/-- `JSONObject`, entered with `pos` just past the `{`: skip
whitespace, accept `}` (empty object) or a `"`-opened first property
name, anything else being "Expecting property name enclosed in double
quotes" there. -/
def parseObject (doc : List Char) (fuel : Nat) (pos : Nat) :
    Except JsonDecodeError (JsonValue × Nat) :=
  match fuel with
  | 0 => .error ⟨"Expecting value", pos⟩
  | f + 1 =>
    let p := skipWs doc pos
    match doc.get? p with
    | some '}' => .ok (.obj [], p + 1)
    | some '"' => parsePairs doc f (p + 1) []
    | _ => .error ⟨"Expecting property name enclosed in double quotes", p⟩
termination_by structural fuel

/-- The `while True` member loop of `JSONObject`, entered with the
position just past a property name's opening quote: scan the key,
require `:`, parse the value, then either close at `}` or require a
`,` followed by the next `"`-opened key, with the decoder's error
messages and positions at each failure point. -/
def parsePairs (doc : List Char) (fuel : Nat) (posAfterQuote : Nat)
    (pairs : List (String × JsonValue)) : Except JsonDecodeError (JsonValue × Nat) :=
  match fuel with
  | 0 => .error ⟨"Expecting value", posAfterQuote⟩
  | f + 1 =>
    match scanstring doc (doc.length + 1) posAfterQuote (posAfterQuote - 1) [] with
    | .error e => .error e
    | .ok (key, p1) =>
      let p2 := skipWs doc p1
      match doc.get? p2 with
      | some ':' =>
        let p3 := skipWs doc (p2 + 1)
        match parseValue doc f p3 with
        | .error e => .error e
        | .ok (v, p4) =>
          let pairs1 := dictInsert pairs key v
          let p5 := skipWs doc p4
          match doc.get? p5 with
          | some '}' => .ok (.obj pairs1, p5 + 1)
          | some ',' =>
            let p6 := skipWs doc (p5 + 1)
            match doc.get? p6 with
            | some '"' => parsePairs doc f (p6 + 1) pairs1
            | _ => .error ⟨"Expecting property name enclosed in double quotes", p6⟩
          | _ => .error ⟨"Expecting \x27,\x27 delimiter", p5⟩
      | _ => .error ⟨"Expecting \x27:\x27 delimiter", p2⟩
termination_by structural fuel

/-- `JSONArray`, entered with `pos` just past the `[`: skip whitespace
and accept `]` (empty array), otherwise parse elements. -/
def parseArray (doc : List Char) (fuel : Nat) (pos : Nat) :
    Except JsonDecodeError (JsonValue × Nat) :=
  match fuel with
  | 0 => .error ⟨"Expecting value", pos⟩
  | f + 1 =>
    let p := skipWs doc pos
    match doc.get? p with
    | some ']' => .ok (.arr [], p + 1)
    | _ => parseItems doc f p []
termination_by structural fuel

/-- The element loop of `JSONArray`: parse a value, then close at `]`
or require a `,` (else "Expecting ',' delimiter") and continue after
trailing whitespace. -/
def parseItems (doc : List Char) (fuel : Nat) (pos : Nat) (acc : List JsonValue) :
    Except JsonDecodeError (JsonValue × Nat) :=
  match fuel with
  | 0 => .error ⟨"Expecting value", pos⟩
  | f + 1 =>
    match parseValue doc f pos with
    | .error e => .error e
    | .ok (v, p1) =>
      let p2 := skipWs doc p1
      match doc.get? p2 with
      | some ']' => .ok (.arr (acc ++ [v]), p2 + 1)
      | some ',' => parseItems doc f (skipWs doc (p2 + 1)) (acc ++ [v])
      | _ => .error ⟨"Expecting \x27,\x27 delimiter", p2⟩
termination_by structural fuel

end

/-- `json.loads(s)`: skip leading whitespace, scan one value, skip
trailing whitespace, and require the input to be exhausted ("Extra
data" otherwise).  The fuel `2 * length + 8` strictly dominates the
number of parsing steps possible on `doc`, so it never runs out. -/
def json_loads (s : String) : Except JsonDecodeError JsonValue :=
  let doc := s.data
  match parseValue doc (2 * doc.length + 8) (skipWs doc 0) with
  | .error e => .error e
  | .ok (v, p) =>
    let p2 := skipWs doc p
    if p2 = doc.length then .ok v else .error ⟨"Extra data", p2⟩

/-- `lineno` of a position, as `JSONDecodeError.__init__` computes it:
one plus the number of newlines before it. -/
def lineOf (doc : List Char) (pos : Nat) : Nat :=
  1 + ((doc.take pos).filter (fun c => c == '\n')).length

/-- `colno` of a position: distance to the last newline before it
(`pos - doc.rfind('\n', 0, pos)`), which is `pos + 1` when there is
none. -/
def colOf (doc : List Char) (pos : Nat) : Nat :=
  match (doc.take pos).reverse.findIdx? (fun c => c == '\n') with
  | some k => k + 1
  | none => pos + 1

/-- `str(e)` for a `JSONDecodeError` raised while parsing `doc`:
`"{msg}: line {lineno} column {colno} (char {pos})"`. -/
def jsonErrStr (doc : List Char) (e : JsonDecodeError) : String :=
  e.msg ++ ": line " ++ toString (lineOf doc e.pos) ++ " column " ++
    toString (colOf doc e.pos) ++ " (char " ++ toString e.pos ++ ")"

/-! ## Provider configuration (`openai_provider.py`) -/

/-- `_get_required_env(name)`: look the name up in the environment
(`env name = none` models an unset variable) and raise `ValueError` when
it is unset or empty (`if not value` is Python truthiness, so the empty
string also fails). -/
def get_required_env (env : String → Option String) (name : String) :
    Except PyErr String :=
  match env name with
  | none => .error (.valueError ("Missing required environment variable: " ++ name))
  | some v =>
    if v = "" then .error (.valueError ("Missing required environment variable: " ++ name))
    else .ok v

/-- `_get_optional_env(name, default)`: `os.getenv(name, default)` —
the default applies only when the variable is unset (a set-but-empty
value is returned as is). -/
def get_optional_env (env : String → Option String) (name dflt : String) : String :=
  (env name).getD dflt

/-- `AzureOpenAIConfig`: the seven configuration values loaded by its
`__init__`. -/
structure AzureOpenAIConfig where
  endpoint : String
  api_key : String
  chat_api_version : String
  embedding_api_version : String
  deployment_chat : String
  deployment_chat_mini : String
  deployment_embedding : String

/-- `AzureOpenAIConfig.__init__`: two required lookups (a failure of
either aborts construction — at import time this makes the process fail
to start) followed by five optional lookups with the documented
defaults. -/
def AzureOpenAIConfig.fromEnv (env : String → Option String) :
    Except PyErr AzureOpenAIConfig := do
  let endpoint ← get_required_env env "AZURE_OPENAI_ENDPOINT"
  let api_key ← get_required_env env "AZURE_OPENAI_KEY"
  pure ⟨endpoint, api_key,
    get_optional_env env "AZURE_OPENAI_API_VERSION" "2024-12-01-preview",
    get_optional_env env "AZURE_OPENAI_EMBEDDING_API_VERSION" "2023-05-15",
    get_optional_env env "AZURE_OPENAI_DEPLOYMENT_CHAT" "gpt-4.1",
    get_optional_env env "AZURE_OPENAI_DEPLOYMENT_CHAT_MINI" "gpt-4.1-mini",
    get_optional_env env "AZURE_OPENAI_DEPLOYMENT_EMBEDDING" "text-embedding-ada-002"⟩

/-- `get_chat_deployment()`. -/
def get_chat_deployment (cfg : AzureOpenAIConfig) : String :=
  cfg.deployment_chat

/-- `get_chat_mini_deployment()`. -/
def get_chat_mini_deployment (cfg : AzureOpenAIConfig) : String :=
  cfg.deployment_chat_mini

/-- `get_embedding_deployment()`. -/
def get_embedding_deployment (cfg : AzureOpenAIConfig) : String :=
  cfg.deployment_embedding

/-! ## Chat completion operations (`ai_service.py`)

Provider calls are modelled by a function from the global provider-call
index (threaded as the `σ = Nat` world state) and the request to the
response the remote provider produces for that call. -/

/-- One `{"role": ..., "content": ...}` message dict. -/
structure ChatMessage where
  role : String
  content : String

/-- The keyword arguments `chat.completions.create` is called with:
resolved deployment, messages, temperature, max output tokens, and the
optional response-format type string (`"json_object"` models
`{"type": "json_object"}`; `none` models the key being absent). -/
structure ChatRequest where
  model : String
  messages : List ChatMessage
  temperature : ℚ
  max_tokens : Nat
  response_format : Option String

/-- `message` of one choice; `content` is `Optional[str]`. -/
structure ChatChoiceMessage where
  content : Option String

/-- One element of `response.choices`. -/
structure ChatChoice where
  message : ChatChoiceMessage

/-- A chat-completions provider response. -/
structure ChatResponse where
  choices : List ChatChoice

/-- Python's `x or default` on an `Optional[str]`: `None` and the empty
string (both falsy) select the default. -/
def pyStrOr (x : Option String) (dflt : String) : String :=
  match x with
  | some s => if s = "" then dflt else s
  | none => dflt

/-- The request `chat_completion` builds: `model or get_chat_deployment()`
for the deployment, everything else forwarded, `response_format` only
present when given (and truthy). -/
def chat_request (cfg : AzureOpenAIConfig) (messages : List ChatMessage)
    (model : Option String) (temperature : ℚ) (max_tokens : Nat)
    (response_format : Option String) : ChatRequest :=
  ⟨pyStrOr model (get_chat_deployment cfg), messages, temperature, max_tokens,
    response_format⟩

/-- `response.choices[0].message.content or ""`: `IndexError` on an
empty choice list, otherwise the first choice's content with both an
absent (`None`) and an empty content normalized to `""`. -/
def extract_first_choice_content (resp : ChatResponse) : Except PyErr String :=
  match resp.choices with
  | [] => .error .indexError
  | c :: _ => .ok (c.message.content.getD "")

/-- The body of `chat_completion` as one retryable operation: issue the
built request to the provider (consuming one global call index) and
normalize the response. -/
def chat_completion_op (provider : Nat → ChatRequest → Except PyErr ChatResponse)
    (cfg : AzureOpenAIConfig) (messages : List ChatMessage) (model : Option String)
    (temperature : ℚ) (max_tokens : Nat) (response_format : Option String) :
    Nat → Nat → Except PyErr String × Nat :=
  fun _attempt n =>
    (match provider n (chat_request cfg messages model temperature max_tokens response_format) with
     | .ok resp => extract_first_choice_content resp
     | .error e => .error e,
     n + 1)

/-- `chat_completion` (decorated with `@with_retry()`), started at
global provider-call index `n`. -/
def chat_completion (provider : Nat → ChatRequest → Except PyErr ChatResponse)
    (cfg : AzureOpenAIConfig) (messages : List ChatMessage) (model : Option String)
    (temperature : ℚ) (max_tokens : Nat) (response_format : Option String)
    (n : Nat) : RunResult Nat String :=
  with_retry MAX_RETRIES INITIAL_BACKOFF BACKOFF_MULTIPLIER
    (chat_completion_op provider cfg messages model temperature max_tokens response_format) n

/-- The body of `chat_completion_json` as one retryable operation: one
full run of the retry-wrapped `chat_completion` with
`response_format={"type": "json_object"}`, whose result (if any) is
parsed with `json.loads`; a parse failure is re-raised as
`ValueError(f"Invalid JSON response from model: {e}")` — note the
message interpolates the `JSONDecodeError` `e`, not the raw content
(which is only logged). -/
def chat_completion_json_op (provider : Nat → ChatRequest → Except PyErr ChatResponse)
    (cfg : AzureOpenAIConfig) (messages : List ChatMessage) (model : Option String)
    (temperature : ℚ) (max_tokens : Nat) :
    Nat → Nat → Except PyErr JsonValue × Nat :=
  fun _attempt n =>
    let r := chat_completion provider cfg messages model temperature max_tokens
      (some "json_object") n
    (match r.outcome with
     | .error e => .error e
     | .ok content =>
       match json_loads content with
       | .ok v => .ok v
       | .error e =>
         .error (.valueError ("Invalid JSON response from model: " ++ jsonErrStr content.data e)),
     r.finalState)

/-- `chat_completion_json` (itself decorated with `@with_retry()` on
top of the already-wrapped `chat_completion` it calls). -/
def chat_completion_json (provider : Nat → ChatRequest → Except PyErr ChatResponse)
    (cfg : AzureOpenAIConfig) (messages : List ChatMessage) (model : Option String)
    (temperature : ℚ) (max_tokens : Nat) (n : Nat) : RunResult Nat JsonValue :=
  with_retry MAX_RETRIES INITIAL_BACKOFF BACKOFF_MULTIPLIER
    (chat_completion_json_op provider cfg messages model temperature max_tokens) n

/-! ## Embedding operations (`ai_service.py`) -/

/-- One element of an embeddings response's `data`. -/
structure EmbeddingItem where
  embedding : List ℚ

/-- An embeddings provider response. -/
structure EmbeddingResponse where
  data : List EmbeddingItem

/-- The body of `generate_embeddings_batch` as one retryable operation:
one `embeddings.create(model=get_embedding_deployment(), input=texts)`
call carrying the whole batch, whose `data` items are mapped to their
`embedding` fields in response order. -/
def generate_embeddings_batch_op
    (provider : Nat → String → List String → Except PyErr EmbeddingResponse)
    (cfg : AzureOpenAIConfig) (texts : List String) :
    Nat → Nat → Except PyErr (List (List ℚ)) × Nat :=
  fun _attempt n =>
    (match provider n (get_embedding_deployment cfg) texts with
     | .ok resp => .ok (resp.data.map (fun item => item.embedding))
     | .error e => .error e,
     n + 1)

/-- `generate_embeddings_batch` (decorated with `@with_retry()`). -/
def generate_embeddings_batch
    (provider : Nat → String → List String → Except PyErr EmbeddingResponse)
    (cfg : AzureOpenAIConfig) (texts : List String) (n : Nat) :
    RunResult Nat (List (List ℚ)) :=
  with_retry MAX_RETRIES INITIAL_BACKOFF BACKOFF_MULTIPLIER
    (generate_embeddings_batch_op provider cfg texts) n

/-! ## Health/validation probe (`openai_provider.py`) -/

/-- The status record `validate_azure_connection` returns. -/
structure HealthStatus where
  status : String
  chat_completion : String
  embeddings : String
  endpoint : String
deriving DecidableEq

/-- `validate_azure_connection()`: issue a minimal chat call and a
minimal embedding call directly (no retry wrapper); `chat_ok` is
`response.choices[0].message.content is not None` (an *empty* content
string still counts as ok), `embedding_ok` is
`len(embed_response.data[0].embedding) > 0`; overall status is
`"healthy"` iff both hold.  Any exception from either call (or the
`IndexError` of an empty `choices`/`data`) propagates (the function
re-raises after logging). -/
def validate_azure_connection (endpoint : String)
    (chatCall : Except PyErr ChatResponse)
    (embedCall : Except PyErr EmbeddingResponse) : Except PyErr HealthStatus :=
  match chatCall with
  | .error e => .error e
  | .ok response =>
    match response.choices with
    | [] => .error .indexError
    | c :: _ =>
      let chat_ok : Bool := c.message.content.isSome
      match embedCall with
      | .error e => .error e
      | .ok er =>
        match er.data with
        | [] => .error .indexError
        | item :: _ =>
          let embedding_ok : Bool := decide (0 < item.embedding.length)
          .ok ⟨if chat_ok && embedding_ok then "healthy" else "degraded",
            if chat_ok then "ok" else "failed",
            if embedding_ok then "ok" else "failed",
            endpoint⟩

/-! ## Auxiliary definitions for stating the claims -/

/-- Substring occurrence test on character lists: does `needle` occur
contiguously inside the second list?  (Used to state that an error
message does or does not carry a raw text.) -/
def hasSubstr (needle : List Char) : List Char → Bool
  | [] => needle.isEmpty
  | c :: rest => needle.isPrefixOf (c :: rest) || hasSubstr needle rest

/-- A concrete configuration value used to instantiate theorems at
concrete inputs. -/
def cfgEx : AzureOpenAIConfig :=
  ⟨"https://example.openai.azure.com", "secret-key", "2024-12-01-preview", "2023-05-15",
   "gpt-4.1", "gpt-4.1-mini", "text-embedding-ada-002"⟩

/-- A concrete environment with both required variables set and all
optional ones unset. -/
def envEx : String → Option String := fun name =>
  if name = "AZURE_OPENAI_ENDPOINT" then some "https://example.openai.azure.com"
  else if name = "AZURE_OPENAI_KEY" then some "secret-key"
  else none

/-! ## General lemmas about the retry loop -/

theorem withRetryAux_zero {σ α : Type} (f : Nat → σ → Except PyErr α × σ) (b m : ℚ)
    (a : Nat) (lastExc : Option PyErr) (acc : ℚ) (s : σ) :
    withRetryAux f b m a 0 lastExc acc s = ⟨a, acc, s, .error (lastExc.getD .typeError)⟩ := rfl

theorem withRetryAux_succ {σ α : Type} (f : Nat → σ → Except PyErr α × σ) (b m : ℚ)
    (a r : Nat) (lastExc : Option PyErr) (acc : ℚ) (s : σ) :
    withRetryAux f b m a (r + 1) lastExc acc s =
      (match f a s with
       | (.ok v, s1) => ⟨a + 1, acc, s1, .ok v⟩
       | (.error e, s1) =>
         if handledByRetry e then
           withRetryAux f b m (a + 1) r (some e) (acc + b * m ^ a) s1
         else ⟨a + 1, acc, s1, .error e⟩) := rfl

/-- If the very first invocation succeeds, the wrapper returns at once:
one attempt, no sleep. -/
theorem with_retry_first_ok {σ α : Type} (N : Nat) (hN : 1 ≤ N) (b m : ℚ)
    (f : Nat → σ → Except PyErr α × σ) (s : σ) (v : α) (s1 : σ)
    (h : f 0 s = (.ok v, s1)) :
    with_retry N b m f s = ⟨1, 0, s1, .ok v⟩ := by
  obtain ⟨r, rfl⟩ : ∃ r, N = r + 1 := ⟨N - 1, by omega⟩
  rw [with_retry, withRetryAux_succ, h]

/-- If the very first invocation raises an exception the `except` chain
does not retry, the wrapper propagates it at once: one attempt, no
sleep. -/
theorem with_retry_first_fatal {σ α : Type} (N : Nat) (hN : 1 ≤ N) (b m : ℚ)
    (f : Nat → σ → Except PyErr α × σ) (s : σ) (e : PyErr) (s1 : σ)
    (h : f 0 s = (.error e, s1)) (he : handledByRetry e = false) :
    with_retry N b m f s = ⟨1, 0, s1, .error e⟩ := by
  obtain ⟨r, rfl⟩ : ∃ r, N = r + 1 := ⟨N - 1, by omega⟩
  rw [with_retry, withRetryAux_succ, h]
  simp [he]

/-- Loop invariant for a stateless operation that fails with a retried
classification on every invocation: all `r` remaining iterations run,
each sleeping its backoff term (including the final one), and the loop
ends by re-raising the error of the last invocation. -/
theorem withRetryAux_allFail {α : Type} (g : Nat → Except PyErr α) (err : Nat → PyErr)
    (hf : ∀ i, g i = .error (err i)) (ht : ∀ i, handledByRetry (err i) = true)
    (b m : ℚ) :
    ∀ (r a : Nat) (lastExc : Option PyErr) (acc : ℚ),
      (withRetryAux (liftOp g) b m a r lastExc acc ()).attempts = a + r ∧
      (withRetryAux (liftOp g) b m a r lastExc acc ()).totalSleep =
        acc + ∑ i ∈ Finset.range r, b * m ^ (a + i) ∧
      (withRetryAux (liftOp g) b m a r lastExc acc ()).outcome =
        .error (if r = 0 then lastExc.getD .typeError else err (a + r - 1)) := by
  intro r
  induction r with
  | zero =>
    intro a lastExc acc
    refine ⟨rfl, by simp [withRetryAux_zero], by simp [withRetryAux_zero]⟩
  | succ r ih =>
    intro a lastExc acc
    have hstep : withRetryAux (liftOp g) b m a (r + 1) lastExc acc () =
        withRetryAux (liftOp g) b m (a + 1) r (some (err a)) (acc + b * m ^ a) () := by
      rw [withRetryAux_succ]
      simp [liftOp, hf a, ht a]
    rw [hstep]
    obtain ⟨h1, h2, h3⟩ := ih (a + 1) (some (err a)) (acc + b * m ^ a)
    refine ⟨h1.trans (by omega), ?_, ?_⟩
    · rw [h2, Finset.sum_range_succ']
      have he : ∀ i, b * m ^ (a + 1 + i) = b * m ^ (a + (i + 1)) := fun i => by
        rw [show a + 1 + i = a + (i + 1) from by omega]
      rw [Finset.sum_congr rfl (fun i _ => he i)]
      simp only [Nat.add_zero]
      ring
    · rw [h3]
      by_cases hr : r = 0
      · subst hr; simp
      · rw [if_neg hr, if_neg (by omega)]
        congr 2
        omega

/-- Loop invariant for a stateless operation that fails with a retried
classification on invocations `0, …, j - 1` and succeeds on invocation
`j`: if the attempt budget reaches `j`, the loop returns the success
after `j + 1` invocations, having slept the first `j - a` backoff
terms. -/
theorem withRetryAux_succeedAt {α : Type} (g : Nat → Except PyErr α) (err : Nat → PyErr)
    (v : α) (j : Nat)
    (hf : ∀ i, i < j → g i = .error (err i))
    (ht : ∀ i, i < j → handledByRetry (err i) = true)
    (hs : g j = .ok v) (b m : ℚ) :
    ∀ (r a : Nat) (lastExc : Option PyErr) (acc : ℚ), a ≤ j → j < a + r →
      (withRetryAux (liftOp g) b m a r lastExc acc ()).attempts = j + 1 ∧
      (withRetryAux (liftOp g) b m a r lastExc acc ()).totalSleep =
        acc + ∑ i ∈ Finset.range (j - a), b * m ^ (a + i) ∧
      (withRetryAux (liftOp g) b m a r lastExc acc ()).outcome = .ok v := by
  intro r
  induction r with
  | zero => intro a lastExc acc h1 h2; omega
  | succ r ih =>
    intro a lastExc acc h1 h2
    by_cases haj : a = j
    · subst haj
      rw [withRetryAux_succ]
      simp [liftOp, hs]
    · have haj' : a < j := by omega
      have hstep : withRetryAux (liftOp g) b m a (r + 1) lastExc acc () =
          withRetryAux (liftOp g) b m (a + 1) r (some (err a)) (acc + b * m ^ a) () := by
        rw [withRetryAux_succ]
        simp [liftOp, hf a haj', ht a haj']
      rw [hstep]
      obtain ⟨g1, g2, g3⟩ := ih (a + 1) (some (err a)) (acc + b * m ^ a) (by omega) (by omega)
      refine ⟨g1, ?_, g3⟩
      rw [g2]
      have hk : j - a = (j - (a + 1)) + 1 := by omega
      rw [hk, Finset.sum_range_succ']
      have he : ∀ i, b * m ^ (a + 1 + i) = b * m ^ (a + (i + 1)) := fun i => by
        rw [show a + 1 + i = a + (i + 1) from by omega]
      rw [Finset.sum_congr rfl (fun i _ => he i)]
      simp only [Nat.add_zero]
      ring

/-- Loop invariant for a call-counting operation (`σ = Nat` is the
global provider-call index) that always fails with a retried
classification, consuming `d ≥ 1` provider calls per invocation and
raising the error of its last provider call: all `r` iterations run,
`r * d` provider calls are made, and the error of the overall last
provider call is re-raised. -/
theorem withRetryAux_allFail_counter {α : Type} (f : Nat → Nat → Except PyErr α × Nat)
    (err : Nat → PyErr) (d : Nat) (hd : 1 ≤ d)
    (hf : ∀ i s, f i s = (.error (err (s + d - 1)), s + d))
    (ht : ∀ s, handledByRetry (err s) = true) (b m : ℚ) :
    ∀ (r a : Nat) (lastExc : Option PyErr) (acc : ℚ) (n : Nat),
      (withRetryAux f b m a r lastExc acc n).attempts = a + r ∧
      (withRetryAux f b m a r lastExc acc n).finalState = n + r * d ∧
      (withRetryAux f b m a r lastExc acc n).outcome =
        .error (if r = 0 then lastExc.getD .typeError else err (n + r * d - 1)) := by
  intro r
  induction r with
  | zero => intro a lastExc acc n; exact ⟨rfl, by simp [withRetryAux_zero], by simp [withRetryAux_zero]⟩
  | succ r ih =>
    intro a lastExc acc n
    have hstep : withRetryAux f b m a (r + 1) lastExc acc n =
        withRetryAux f b m (a + 1) r (some (err (n + d - 1))) (acc + b * m ^ a) (n + d) := by
      rw [withRetryAux_succ, hf a n]
      simp [ht]
    rw [hstep]
    obtain ⟨h1, h2, h3⟩ := ih (a + 1) (some (err (n + d - 1))) (acc + b * m ^ a) (n + d)
    refine ⟨h1.trans (by omega), h2.trans (by rw [Nat.succ_mul]; omega), ?_⟩
    rw [h3]
    by_cases hr : r = 0
    · subst hr; simp
    · rw [if_neg hr, if_neg (by omega)]
      congr 2
      rw [Nat.succ_mul]
      omega

/-! ## Claim C1 -/

/-- C1, counterexample: with the default policy (`MAX_RETRIES = 3`,
`INITIAL_BACKOFF = 1`, `BACKOFF_MULTIPLIER = 2`) and an operation that
is rate-limited on every invocation, the total suspension time of
`with_retry` is NOT the sum of the first `N − 1` backoff terms
(`1 + 2 = 3`): the loop also sleeps after the final failed attempt, for
a total of `1 + 2 + 4 = 7`. -/
theorem C1_counterexample :
    (with_retry MAX_RETRIES INITIAL_BACKOFF BACKOFF_MULTIPLIER
        (liftOp (fun _ => (.error PyErr.rateLimit : Except PyErr String))) ()).totalSleep ≠
      ∑ i ∈ Finset.range (MAX_RETRIES - 1), INITIAL_BACKOFF * BACKOFF_MULTIPLIER ^ i := by
  obtain ⟨-, h2, -⟩ := withRetryAux_allFail
    (fun _ => (.error PyErr.rateLimit : Except PyErr String))
    (fun _ => PyErr.rateLimit) (fun _ => rfl) (fun _ => rfl)
    INITIAL_BACKOFF BACKOFF_MULTIPLIER MAX_RETRIES 0 none 0
  rw [with_retry, h2, show MAX_RETRIES = 3 from rfl, show INITIAL_BACKOFF = (1 : ℚ) from rfl,
    show BACKOFF_MULTIPLIER = (2 : ℚ) from rfl]
  norm_num [Finset.sum_range_succ]

/-- C1 as amended: for every `max_attempts = N ≥ 1` and every operation
failing on each invocation with a classification the `except` chain
retries, `with_retry` invokes the operation exactly `N` times and
propagates the last failure, but the total suspension time is the sum
of the first `N` (not `N − 1`) terms of the geometric backoff sequence
`b·m^i`: the code sleeps after the final failed attempt as well, there
being no `attempt < max_retries - 1` guard before the sleep. -/
theorem C1_amended {α : Type} (g : Nat → Except PyErr α) (err : Nat → PyErr) (N : Nat)
    (b m : ℚ) (hN : 1 ≤ N)
    (hf : ∀ i, g i = .error (err i)) (ht : ∀ i, handledByRetry (err i) = true) :
    (with_retry N b m (liftOp g) ()).attempts = N ∧
    (with_retry N b m (liftOp g) ()).outcome = .error (err (N - 1)) ∧
    (with_retry N b m (liftOp g) ()).totalSleep = ∑ i ∈ Finset.range N, b * m ^ i := by
  obtain ⟨h1, h2, h3⟩ := withRetryAux_allFail g err hf ht b m N 0 none 0
  rw [with_retry]
  refine ⟨by simpa using h1, ?_, ?_⟩
  · rw [h3, if_neg (by omega), Nat.zero_add]
  · rw [h2]; simp

/-- C1 witness: the amended statement at the default policy and an
always-rate-limited operation. -/
theorem C1_witness :
    (with_retry 3 1 2 (liftOp (fun _ => (.error PyErr.rateLimit : Except PyErr String))) ()).attempts = 3 ∧
    (with_retry 3 1 2 (liftOp (fun _ => (.error PyErr.rateLimit : Except PyErr String))) ()).outcome =
      .error (PyErr.rateLimit) ∧
    (with_retry 3 1 2 (liftOp (fun _ => (.error PyErr.rateLimit : Except PyErr String))) ()).totalSleep =
      ∑ i ∈ Finset.range 3, 1 * 2 ^ i :=
  C1_amended (fun _ => .error PyErr.rateLimit) (fun _ => PyErr.rateLimit) 3 1 2
    (by omega) (fun _ => rfl) (fun _ => rfl)

/-! ## Claim C4 -/

/-- C4: an operation whose first invocation fails with a permanent
classification (`APIStatusError` with status in 400–499, 429 excluded —
a 429 would be raised as `RateLimitError`) is invoked exactly once,
with zero suspension, and the failure propagates immediately. -/
theorem C4_permanent_no_retry {α : Type} (g : Nat → Except PyErr α) (sc N : Nat) (b m : ℚ)
    (hN : 1 ≤ N) (hg : g 0 = .error (.apiStatus sc))
    (h4 : 400 ≤ sc) (h5 : sc < 500) (_h429 : sc ≠ 429) :
    (with_retry N b m (liftOp g) ()).attempts = 1 ∧
    (with_retry N b m (liftOp g) ()).totalSleep = 0 ∧
    (with_retry N b m (liftOp g) ()).outcome = .error (.apiStatus sc) := by
  have hhandled : handledByRetry (.apiStatus sc) = false := by
    simp only [handledByRetry]
    rw [if_pos ⟨h4, h5⟩]
  have h := with_retry_first_fatal N hN b m (liftOp g) () (.apiStatus sc) ()
    (by simp [liftOp, hg]) hhandled
  rw [h]
  exact ⟨rfl, rfl, rfl⟩

/-- C4 witness: a 404 under the default policy. -/
theorem C4_witness :
    (with_retry 3 1 2 (liftOp (fun _ => (.error (PyErr.apiStatus 404) : Except PyErr String))) ()).attempts = 1 ∧
    (with_retry 3 1 2 (liftOp (fun _ => (.error (PyErr.apiStatus 404) : Except PyErr String))) ()).totalSleep = 0 ∧
    (with_retry 3 1 2 (liftOp (fun _ => (.error (PyErr.apiStatus 404) : Except PyErr String))) ()).outcome =
      .error (PyErr.apiStatus 404) :=
  C4_permanent_no_retry (fun _ => .error (PyErr.apiStatus 404)) 404 3 1 2
    (by omega) rfl (by omega) (by omega) (by omega)

/-! ## Claim C5 -/

/-- C5: a 429 failure — raised as `RateLimitError` — is handled as
transient and retried under the backoff policy, in contrast to the
other 4xx statuses, which are never retried: an operation rate-limited
on its first invocation and succeeding on its second is invoked twice,
returns the success, and sleeps the initial backoff in between. -/
theorem C5_rate_limit_is_transient {α : Type} (g : Nat → Except PyErr α) (v : α) (N : Nat)
    (b m : ℚ) (hN : 2 ≤ N) (h0 : g 0 = .error .rateLimit) (h1 : g 1 = .ok v) :
    handledByRetry .rateLimit = true ∧
    (∀ sc, 400 ≤ sc → sc < 500 → sc ≠ 429 → handledByRetry (.apiStatus sc) = false) ∧
    (with_retry N b m (liftOp g) ()).attempts = 2 ∧
    (with_retry N b m (liftOp g) ()).outcome = .ok v ∧
    (with_retry N b m (liftOp g) ()).totalSleep = b := by
  have herr : ∀ i, i < 1 → g i = .error ((fun _ => PyErr.rateLimit) i) := by
    intro i hi
    have h : i = 0 := by omega
    subst h
    exact h0
  obtain ⟨g1, g2, g3⟩ := withRetryAux_succeedAt g (fun _ => PyErr.rateLimit) v 1
    herr (fun i _ => rfl) h1 b m N 0 none 0 (by omega) (by omega)
  refine ⟨rfl, ?_, ?_, ?_, ?_⟩
  · intro sc hs4 hs5 _
    simp only [handledByRetry]
    rw [if_pos ⟨hs4, hs5⟩]
  · rw [with_retry]; exact g1
  · rw [with_retry]; exact g3
  · rw [with_retry, g2]; simp

/-- C5 witness: rate-limited once, then succeeding, under the default
policy. -/
theorem C5_witness :
    handledByRetry .rateLimit = true ∧
    (∀ sc, 400 ≤ sc → sc < 500 → sc ≠ 429 → handledByRetry (.apiStatus sc) = false) ∧
    (with_retry 3 1 2 (liftOp (fun i => if i = 0 then (.error PyErr.rateLimit : Except PyErr String) else .ok "answer")) ()).attempts = 2 ∧
    (with_retry 3 1 2 (liftOp (fun i => if i = 0 then (.error PyErr.rateLimit : Except PyErr String) else .ok "answer")) ()).outcome = .ok "answer" ∧
    (with_retry 3 1 2 (liftOp (fun i => if i = 0 then (.error PyErr.rateLimit : Except PyErr String) else .ok "answer")) ()).totalSleep = 1 :=
  C5_rate_limit_is_transient
    (fun i => if i = 0 then (.error PyErr.rateLimit : Except PyErr String) else .ok "answer")
    "answer" 3 1 2 (by omega) rfl rfl

/-! ## Claim C6 -/

/-- C6: an operation failing transiently on its first `k − 1`
invocations and succeeding on invocation `k ≤ N` is invoked exactly `k`
times, and the wrapper returns the successful result unmodified. -/
theorem C6_success_stops_retrying {α : Type} (g : Nat → Except PyErr α) (err : Nat → PyErr)
    (v : α) (k N : Nat) (b m : ℚ) (hk : 1 ≤ k) (hkN : k ≤ N)
    (hf : ∀ i, i < k - 1 → g i = .error (err i))
    (ht : ∀ i, i < k - 1 → handledByRetry (err i) = true)
    (hs : g (k - 1) = .ok v) :
    (with_retry N b m (liftOp g) ()).attempts = k ∧
    (with_retry N b m (liftOp g) ()).outcome = .ok v := by
  obtain ⟨h1, -, h3⟩ := withRetryAux_succeedAt g err v (k - 1) hf ht hs b m N 0 none 0
    (by omega) (by omega)
  rw [with_retry]
  exact ⟨h1.trans (by omega), h3⟩

/-- C6 witness: one connection failure, then success, under the default
policy (`k = 2`, `N = 3`). -/
theorem C6_witness :
    (with_retry 3 1 2 (liftOp (fun i => if i = 0 then (.error PyErr.apiConnection : Except PyErr String) else .ok "done")) ()).attempts = 2 ∧
    (with_retry 3 1 2 (liftOp (fun i => if i = 0 then (.error PyErr.apiConnection : Except PyErr String) else .ok "done")) ()).outcome = .ok "done" :=
  C6_success_stops_retrying
    (fun i => if i = 0 then (.error PyErr.apiConnection : Except PyErr String) else .ok "done")
    (fun _ => PyErr.apiConnection) "done" 2 3 1 2 (by omega) (by omega)
    (fun i hi => by
      have h : i = 0 := by omega
      subst h
      rfl)
    (fun i _ => rfl) rfl

/-! ## Claim C7 -/

/-- C7: `generate_embeddings_batch` issues one provider call carrying
the whole input list; when the provider answers with one embedding item
per input text (the API contract), the returned sequence is the
response's embeddings in response order, so its length equals the input
length and its `i`-th element is the embedding of the `i`-th item; and
when the call keeps failing transiently, the whole operation fails with
no partial results. -/
theorem C7_batch_embedding (cfg : AzureOpenAIConfig) (texts : List String)
    (p1 p2 : Nat → String → List String → Except PyErr EmbeddingResponse)
    (items : List EmbeddingItem)
    (h1 : p1 0 (get_embedding_deployment cfg) texts = .ok ⟨items⟩)
    (hlen : items.length = texts.length)
    (herr : ∀ n dep ts, p2 n dep ts = .error .apiTimeout) :
    (generate_embeddings_batch p1 cfg texts 0).attempts = 1 ∧
    (generate_embeddings_batch p1 cfg texts 0).finalState = 1 ∧
    (generate_embeddings_batch p1 cfg texts 0).outcome =
      .ok (items.map (fun item => item.embedding)) ∧
    (items.map (fun item => item.embedding)).length = texts.length ∧
    (∀ i, (items.map (fun item => item.embedding)).get? i =
      (items.get? i).map (fun item => item.embedding)) ∧
    (generate_embeddings_batch p2 cfg texts 0).outcome = .error .apiTimeout := by
  have hop : generate_embeddings_batch_op p1 cfg texts 0 0 =
      (.ok (items.map (fun item => item.embedding)), 1) := by
    simp [generate_embeddings_batch_op, h1]
  have hrun := with_retry_first_ok MAX_RETRIES (by decide) INITIAL_BACKOFF BACKOFF_MULTIPLIER
    (generate_embeddings_batch_op p1 cfg texts) 0
    (items.map (fun item => item.embedding)) 1 hop
  obtain ⟨-, -, hout⟩ := withRetryAux_allFail_counter (generate_embeddings_batch_op p2 cfg texts)
    (fun _ => PyErr.apiTimeout) 1 (by omega)
    (fun i s => by simp [generate_embeddings_batch_op, herr])
    (fun _ => rfl) INITIAL_BACKOFF BACKOFF_MULTIPLIER MAX_RETRIES 0 none 0 0
  refine ⟨?_, ?_, ?_, ?_, ?_, ?_⟩
  · rw [generate_embeddings_batch, hrun]
  · rw [generate_embeddings_batch, hrun]
  · rw [generate_embeddings_batch, hrun]
  · simpa using hlen
  · intro i
    simp
  · rw [generate_embeddings_batch, with_retry, hout, if_neg (by decide)]

/-- C7 witness: a three-text batch against a stub provider answering
three vectors, and the failure case against an always-timing-out
provider. -/
theorem C7_witness :
    (generate_embeddings_batch
      (fun _ _ _ => .ok ⟨[⟨[(1 : ℚ)]⟩, ⟨[2]⟩, ⟨[3]⟩]⟩) cfgEx ["a", "b", "c"] 0).attempts = 1 ∧
    (generate_embeddings_batch
      (fun _ _ _ => .ok ⟨[⟨[(1 : ℚ)]⟩, ⟨[2]⟩, ⟨[3]⟩]⟩) cfgEx ["a", "b", "c"] 0).finalState = 1 ∧
    (generate_embeddings_batch
      (fun _ _ _ => .ok ⟨[⟨[(1 : ℚ)]⟩, ⟨[2]⟩, ⟨[3]⟩]⟩) cfgEx ["a", "b", "c"] 0).outcome =
      .ok [[(1 : ℚ)], [2], [3]] ∧
    (generate_embeddings_batch
      (fun _ _ _ => .error .apiTimeout) cfgEx ["a", "b", "c"] 0).outcome =
      .error PyErr.apiTimeout := by
  obtain ⟨w1, w2, w3, -, -, w6⟩ := C7_batch_embedding cfgEx ["a", "b", "c"]
    (fun _ _ _ => .ok ⟨[⟨[(1 : ℚ)]⟩, ⟨[2]⟩, ⟨[3]⟩]⟩) (fun _ _ _ => .error .apiTimeout)
    [⟨[(1 : ℚ)]⟩, ⟨[2]⟩, ⟨[3]⟩] rfl rfl (fun _ _ _ => rfl)
  exact ⟨w1, w2, w3, w6⟩

/-! ## Claim C8 -/

/-- C8 counterexample: an explicitly given deployment override that is
the empty string is NOT used — Python's `model or get_chat_deployment()`
is a truthiness test, so the empty override falls back to the default
main chat deployment. -/
theorem C8_counterexample :
    (chat_request cfgEx [] (some "") 1 5 none).model ≠ "" ∧
    (chat_request cfgEx [] (some "") 1 5 none).model = "gpt-4.1" := by
  constructor
  · decide
  · rfl

/-- C8 as amended: the built request uses the default main chat
deployment when no override is given, and the explicit override when it
is given and non-empty (a given-but-empty override degrades to the
default, per the counterexample); and on a provider response the
wrapper returns the first choice's text content, an absent content
field being normalized to the empty string instead of failing. -/
theorem C8_amended (cfg : AzureOpenAIConfig)
    (provider : Nat → ChatRequest → Except PyErr ChatResponse)
    (messages : List ChatMessage) (model? : Option String) (temperature : ℚ)
    (max_tokens : Nat) (rf : Option String) (n : Nat) (c : ChatChoice) (rest : List ChatChoice)
    (hresp : provider n (chat_request cfg messages model? temperature max_tokens rf) =
      .ok ⟨c :: rest⟩) :
    (model? = none →
      (chat_request cfg messages model? temperature max_tokens rf).model =
        get_chat_deployment cfg) ∧
    (∀ s, model? = some s → s ≠ "" →
      (chat_request cfg messages model? temperature max_tokens rf).model = s) ∧
    (chat_completion provider cfg messages model? temperature max_tokens rf n).attempts = 1 ∧
    (chat_completion provider cfg messages model? temperature max_tokens rf n).outcome =
      .ok (c.message.content.getD "") := by
  have hop : chat_completion_op provider cfg messages model? temperature max_tokens rf 0 n =
      (.ok (c.message.content.getD ""), n + 1) := by
    simp [chat_completion_op, hresp, extract_first_choice_content]
  have hrun := with_retry_first_ok MAX_RETRIES (by decide) INITIAL_BACKOFF BACKOFF_MULTIPLIER
    (chat_completion_op provider cfg messages model? temperature max_tokens rf) n
    (c.message.content.getD "") (n + 1) hop
  refine ⟨?_, ?_, ?_, ?_⟩
  · intro h; subst h; rfl
  · intro s h hs
    subst h
    simp [chat_request, pyStrOr, hs]
  · rw [chat_completion, hrun]
  · rw [chat_completion, hrun]

/-- C8 witness: no override given, and a response whose first choice
has an absent content field: the default deployment is used and the
empty string is returned. -/
theorem C8_witness :
    ((none : Option String) = none →
      (chat_request cfgEx [] none 1 5 none).model = get_chat_deployment cfgEx) ∧
    (∀ s, (none : Option String) = some s → s ≠ "" →
      (chat_request cfgEx [] none 1 5 none).model = s) ∧
    (chat_completion (fun _ _ => .ok ⟨[⟨⟨none⟩⟩]⟩) cfgEx [] none 1 5 none 0).attempts = 1 ∧
    (chat_completion (fun _ _ => .ok ⟨[⟨⟨none⟩⟩]⟩) cfgEx [] none 1 5 none 0).outcome = .ok "" :=
  C8_amended cfgEx (fun _ _ => .ok ⟨[⟨⟨none⟩⟩]⟩) [] none 1 5 none 0 ⟨⟨none⟩⟩ [] rfl

/-! ## Claim C10 -/

/-- C10: because `chat_completion_json` is itself wrapped in
`@with_retry()` and delegates to the already-wrapped `chat_completion`,
one call against a provider that fails with a retried (transient)
classification on every provider call runs the inner retry loop to
exhaustion once per outer attempt: `MAX_RETRIES × MAX_RETRIES = 9`
provider calls in total (the final call index advances by 9), with the
outer wrapper itself making `MAX_RETRIES` attempts, and the error of
the very last provider call propagating. -/
theorem C10_nested_retry (provider : Nat → ChatRequest → Except PyErr ChatResponse)
    (cfg : AzureOpenAIConfig) (messages : List ChatMessage) (model? : Option String)
    (temperature : ℚ) (max_tokens : Nat) (err : Nat → PyErr) (n : Nat)
    (hp : ∀ k req, provider k req = .error (err k))
    (ht : ∀ k, handledByRetry (err k) = true) :
    (chat_completion_json provider cfg messages model? temperature max_tokens n).finalState =
      n + MAX_RETRIES * MAX_RETRIES ∧
    (chat_completion_json provider cfg messages model? temperature max_tokens n).attempts =
      MAX_RETRIES ∧
    (chat_completion_json provider cfg messages model? temperature max_tokens n).outcome =
      .error (err (n + MAX_RETRIES * MAX_RETRIES - 1)) := by
  have hin := withRetryAux_allFail_counter
    (chat_completion_op provider cfg messages model? temperature max_tokens (some "json_object"))
    err 1 (by omega)
    (fun i s => by simp [chat_completion_op, hp])
    ht INITIAL_BACKOFF BACKOFF_MULTIPLIER
  have houter : ∀ i s,
      chat_completion_json_op provider cfg messages model? temperature max_tokens i s =
        (.error (err (s + MAX_RETRIES - 1)), s + MAX_RETRIES) := by
    intro i s
    obtain ⟨-, hstate, hout⟩ := hin MAX_RETRIES 0 none 0 s
    rw [if_neg (by decide), Nat.mul_one] at hout
    rw [Nat.mul_one] at hstate
    simp only [chat_completion_json_op, chat_completion, with_retry]
    rw [hout, hstate]
  obtain ⟨h1, h2, h3⟩ := withRetryAux_allFail_counter
    (chat_completion_json_op provider cfg messages model? temperature max_tokens)
    err MAX_RETRIES (by decide) houter ht INITIAL_BACKOFF BACKOFF_MULTIPLIER
    MAX_RETRIES 0 none 0 n
  rw [chat_completion_json, with_retry]
  exact ⟨h2, by simpa using h1, by rw [h3, if_neg (by decide)]⟩

/-- C10 witness: an always-rate-limited provider, starting at provider
call index 0: nine provider calls, three outer attempts, and the rate
limit error propagating. -/
theorem C10_witness :
    (chat_completion_json (fun _ _ => .error .rateLimit) cfgEx [] none 1 5 0).finalState =
      0 + MAX_RETRIES * MAX_RETRIES ∧
    (chat_completion_json (fun _ _ => .error .rateLimit) cfgEx [] none 1 5 0).attempts =
      MAX_RETRIES ∧
    (chat_completion_json (fun _ _ => .error .rateLimit) cfgEx [] none 1 5 0).outcome =
      .error PyErr.rateLimit :=
  C10_nested_retry (fun _ _ => .error .rateLimit) cfgEx [] none 1 5 (fun _ => PyErr.rateLimit) 0
    (fun _ _ => rfl) (fun _ => rfl)

/-! ## Claim C2 -/

/-- C2 counterexample: against a stub whose chat call returns an EMPTY
text content (`""`) and whose embedding call returns a non-empty
vector, the probe reports `"healthy"` / `"ok"` — not `"degraded"` /
`"failed"` — because `chat_ok` is `content is not None`, not a
non-emptiness test. -/
theorem C2_counterexample :
    validate_azure_connection "https://e" (.ok ⟨[⟨⟨some ""⟩⟩]⟩) (.ok ⟨[⟨[(1 : ℚ)]⟩]⟩) =
      .ok ⟨"healthy", "ok", "ok", "https://e"⟩ ∧
    validate_azure_connection "https://e" (.ok ⟨[⟨⟨some ""⟩⟩]⟩) (.ok ⟨[⟨[(1 : ℚ)]⟩]⟩) ≠
      .ok ⟨"degraded", "failed", "ok", "https://e"⟩ := by
  have hval : validate_azure_connection "https://e" (.ok ⟨[⟨⟨some ""⟩⟩]⟩)
      (.ok ⟨[⟨[(1 : ℚ)]⟩]⟩) = .ok ⟨"healthy", "ok", "ok", "https://e"⟩ := rfl
  refine ⟨hval, fun hc => ?_⟩
  rw [hval] at hc
  have hstatus : ("healthy" : String) = "degraded" :=
    congrArg (fun x => match x with | .ok h => h.status | .error _ => "") hc
  exact absurd hstatus (by decide)

/-- C2 as amended: the chat sub-check fails only when the content field
is ABSENT (`None`) — an empty string still counts as ok — so a stub
returning absent chat content and a non-empty embedding yields
`"degraded"` / `"failed"` / `"ok"`, and in general the overall status
is `"healthy"` iff the chat content is present (not `None`) and the
embedding vector is non-empty. -/
theorem C2_amended (endpoint : String) (emb : List ℚ) (hemb : emb ≠ []) :
    validate_azure_connection endpoint (.ok ⟨[⟨⟨none⟩⟩]⟩) (.ok ⟨[⟨emb⟩]⟩) =
      .ok ⟨"degraded", "failed", "ok", endpoint⟩ ∧
    (∀ (content? : Option String) (emb' : List ℚ),
      validate_azure_connection endpoint (.ok ⟨[⟨⟨content?⟩⟩]⟩) (.ok ⟨[⟨emb'⟩]⟩) =
        .ok ⟨if content?.isSome ∧ emb' ≠ [] then "healthy" else "degraded",
             if content?.isSome then "ok" else "failed",
             if emb' ≠ [] then "ok" else "failed", endpoint⟩) := by
  have hgen : ∀ (content? : Option String) (emb' : List ℚ),
      validate_azure_connection endpoint (.ok ⟨[⟨⟨content?⟩⟩]⟩) (.ok ⟨[⟨emb'⟩]⟩) =
        .ok ⟨if content?.isSome ∧ emb' ≠ [] then "healthy" else "degraded",
             if content?.isSome then "ok" else "failed",
             if emb' ≠ [] then "ok" else "failed", endpoint⟩ := by
    intro content? emb'
    cases content? <;> cases emb' <;> simp [validate_azure_connection]
  refine ⟨?_, hgen⟩
  rw [hgen none emb]
  simp [hemb]

/-- C2 witness: the amended statement's degraded scenario at a concrete
stub (absent chat content, one-component embedding). -/
theorem C2_witness :
    validate_azure_connection "https://e" (.ok ⟨[⟨⟨none⟩⟩]⟩) (.ok ⟨[⟨[(1 : ℚ)]⟩]⟩) =
      .ok ⟨"degraded", "failed", "ok", "https://e"⟩ :=
  (C2_amended "https://e" [(1 : ℚ)] (by decide)).1

/-! ## Claim C3 -/

/-- C3 counterexample: for the malformed provider output `"{bad json"`,
`chat_completion_json` raises `ValueError` whose message interpolates
the `JSONDecodeError` — and the raw unparsed text does NOT occur in
that message (it is only logged): the raised error does not carry the
raw text. -/
theorem C3_counterexample :
    (chat_completion_json (fun _ _ => .ok ⟨[⟨⟨some "\x7bbad json"⟩⟩]⟩) cfgEx [] none 1 5 0).outcome =
      .error (.valueError
        "Invalid JSON response from model: Expecting property name enclosed in double quotes: line 1 column 2 (char 1)") ∧
    hasSubstr "\x7bbad json".data
      ("Invalid JSON response from model: Expecting property name enclosed in double quotes: line 1 column 2 (char 1)").data = false := by
  exact ⟨rfl, by decide⟩

/-- C3 as amended: when the provider's first call yields text
`content`, `chat_completion_json` returns the parsed structured value
whenever `content` is valid JSON (in particular it never substitutes an
empty or default structure), and raises a distinct error kind —
`ValueError`, which the retry chain does not catch — whose message is
built from the JSON decode error (the raw unparsed text itself is
logged, not carried by the raised error) whenever `content` is not
valid JSON. -/
theorem C3_amended (provider : Nat → ChatRequest → Except PyErr ChatResponse)
    (cfg : AzureOpenAIConfig) (messages : List ChatMessage) (model? : Option String)
    (temperature : ℚ) (max_tokens : Nat) (n : Nat) (resp : ChatResponse) (content : String)
    (hresp : provider n (chat_request cfg messages model? temperature max_tokens
      (some "json_object")) = .ok resp)
    (hcontent : extract_first_choice_content resp = .ok content) :
    (∀ v, json_loads content = .ok v →
      (chat_completion_json provider cfg messages model? temperature max_tokens n).outcome =
        .ok v ∧
      (chat_completion_json provider cfg messages model? temperature max_tokens n).attempts = 1) ∧
    (∀ e, json_loads content = .error e →
      (chat_completion_json provider cfg messages model? temperature max_tokens n).outcome =
        .error (.valueError ("Invalid JSON response from model: " ++ jsonErrStr content.data e)) ∧
      (chat_completion_json provider cfg messages model? temperature max_tokens n).attempts = 1) := by
  have hop : chat_completion_op provider cfg messages model? temperature max_tokens
      (some "json_object") 0 n = (.ok content, n + 1) := by
    simp [chat_completion_op, hresp, hcontent]
  have hrun : chat_completion provider cfg messages model? temperature max_tokens
      (some "json_object") n = ⟨1, 0, n + 1, .ok content⟩ := by
    rw [chat_completion]
    exact with_retry_first_ok MAX_RETRIES (by decide) INITIAL_BACKOFF BACKOFF_MULTIPLIER
      _ n content (n + 1) hop
  constructor
  · intro v hv
    have hopj : chat_completion_json_op provider cfg messages model? temperature max_tokens 0 n =
        (.ok v, n + 1) := by
      simp only [chat_completion_json_op]
      rw [hrun]
      simp [hv]
    have h := with_retry_first_ok MAX_RETRIES (by decide) INITIAL_BACKOFF BACKOFF_MULTIPLIER
      (chat_completion_json_op provider cfg messages model? temperature max_tokens) n v (n + 1) hopj
    rw [chat_completion_json, h]
    exact ⟨rfl, rfl⟩
  · intro e he
    have hopj : chat_completion_json_op provider cfg messages model? temperature max_tokens 0 n =
        (.error (.valueError ("Invalid JSON response from model: " ++ jsonErrStr content.data e)),
          n + 1) := by
      simp only [chat_completion_json_op]
      rw [hrun]
      simp [he]
    have h := with_retry_first_fatal MAX_RETRIES (by decide) INITIAL_BACKOFF BACKOFF_MULTIPLIER
      (chat_completion_json_op provider cfg messages model? temperature max_tokens) n _ (n + 1)
      hopj rfl
    rw [chat_completion_json, h]
    exact ⟨rfl, rfl⟩

/-- C3 witness: the well-formed provider output
`"{\"topics\": [\"x\"]}"` yields the structured value
`{"topics": ["x"]}` in one attempt. -/
theorem C3_witness :
    (chat_completion_json (fun _ _ => .ok ⟨[⟨⟨some "\x7b\"topics\": [\"x\"]\x7d"⟩⟩]⟩)
        cfgEx [] none 1 5 0).outcome =
      .ok (.obj [("topics", .arr [.str "x"])]) ∧
    (chat_completion_json (fun _ _ => .ok ⟨[⟨⟨some "\x7b\"topics\": [\"x\"]\x7d"⟩⟩]⟩)
        cfgEx [] none 1 5 0).attempts = 1 :=
  (C3_amended (fun _ _ => .ok ⟨[⟨⟨some "\x7b\"topics\": [\"x\"]\x7d"⟩⟩]⟩) cfgEx [] none 1 5 0
    ⟨[⟨⟨some "\x7b\"topics\": [\"x\"]\x7d"⟩⟩]⟩ "\x7b\"topics\": [\"x\"]\x7d" rfl rfl).1
    (.obj [("topics", .arr [.str "x"])]) rfl

/-! ## Claim C9 -/

/-- C9: configuration construction fails (aborting process start) when
the endpoint or the credential cannot be resolved from the environment,
with the documented `ValueError`; and when both are present and
non-empty, construction succeeds no matter which of the five optional
values are absent, those falling back to their documented defaults. -/
theorem C9_config_required_env (env : String → Option String) :
    (env "AZURE_OPENAI_ENDPOINT" = none →
      AzureOpenAIConfig.fromEnv env =
        .error (.valueError "Missing required environment variable: AZURE_OPENAI_ENDPOINT")) ∧
    (∀ ep, env "AZURE_OPENAI_ENDPOINT" = some ep → ep ≠ "" → env "AZURE_OPENAI_KEY" = none →
      AzureOpenAIConfig.fromEnv env =
        .error (.valueError "Missing required environment variable: AZURE_OPENAI_KEY")) ∧
    (∀ ep key, env "AZURE_OPENAI_ENDPOINT" = some ep → ep ≠ "" →
      env "AZURE_OPENAI_KEY" = some key → key ≠ "" →
      AzureOpenAIConfig.fromEnv env = .ok
        ⟨ep, key,
         (env "AZURE_OPENAI_API_VERSION").getD "2024-12-01-preview",
         (env "AZURE_OPENAI_EMBEDDING_API_VERSION").getD "2023-05-15",
         (env "AZURE_OPENAI_DEPLOYMENT_CHAT").getD "gpt-4.1",
         (env "AZURE_OPENAI_DEPLOYMENT_CHAT_MINI").getD "gpt-4.1-mini",
         (env "AZURE_OPENAI_DEPLOYMENT_EMBEDDING").getD "text-embedding-ada-002"⟩) := by
  refine ⟨?_, ?_, ?_⟩
  · intro h
    simp only [AzureOpenAIConfig.fromEnv, get_required_env, h]
    rfl
  · intro ep h1 h2 h3
    simp only [AzureOpenAIConfig.fromEnv, get_required_env, h1, h3, if_neg h2]
    rfl
  · intro ep key h1 h2 h3 h4
    simp only [AzureOpenAIConfig.fromEnv, get_required_env, get_optional_env, h1, h3,
      if_neg h2, if_neg h4]
    rfl

/-- C9 witness: the fully empty environment fails on the endpoint, and
an environment with exactly the two required values set produces the
configuration with all five documented defaults. -/
theorem C9_witness :
    AzureOpenAIConfig.fromEnv (fun _ => none) =
      .error (.valueError "Missing required environment variable: AZURE_OPENAI_ENDPOINT") ∧
    AzureOpenAIConfig.fromEnv envEx = .ok
      ⟨"https://example.openai.azure.com", "secret-key", "2024-12-01-preview", "2023-05-15",
       "gpt-4.1", "gpt-4.1-mini", "text-embedding-ada-002"⟩ := by
  constructor
  · exact (C9_config_required_env (fun _ => none)).1 rfl
  · exact ((C9_config_required_env envEx).2.2 "https://example.openai.azure.com" "secret-key"
      rfl (by decide) rfl (by decide)).trans (by rfl)
